import Mathlib

/-!
# Verification of the morpho runtime core against its specification

Shallow embedding of the C sources:
* `src/src/classes/clss.c` — C3 linearization of the class hierarchy;
* `src/src/support/random.c` — splitmix64, xoshiro256++/xoshiro256+ and
  their seeding, draw and jump operations;
* `src/src/support/parse.h` — the parser precedence ladder;
* `src/morpho5/geometry/discretization.c` — the discretization entity,
  the 1-D Lagrange constructor and its node-position computation.

Classes are identified by their `uid` (a `Nat`); class values in the C
code are compared by identity (`MORPHO_ISEQUAL` on object references with
no `cmpfn` installed), which the `Nat` equality mirrors.  Machine
integers are modelled as `Nat` with explicit reduction modulo `2 ^ 64`
wherever the C computation can wrap.
-/

/-! ## Class linearization (`src/src/classes/clss.c`) -/

/-- A morpho class as far as linearization is concerned: its `uid`, the
ordered list of parent uids (`klass->parents`), and the stored
linearization (`klass->linearization`). -/
structure ObjectClass where
  uid : Nat
  parents : List Nat
  linearization : List Nat
deriving Repr, DecidableEq

/-- `_intail` from clss.c: is `v` present in the tail (positions `1 ..`)
of `list`? -/
def _intail (list : List Nat) (v : Nat) : Bool :=
  list.tail.contains v

/-- `_remove` from clss.c.  The C loop shifts the array left when it finds
`v` at index `i`, decrements `count`, and then still increments `i`, so
the element shifted into slot `i` is not examined.  (The `memcpy` size
expression over-counts bytes, but the surviving `count` elements are the
ones this function produces; the extra bytes lie beyond the live
region.) -/
def _remove (v : Nat) : List Nat → List Nat
  | [] => []
  | a :: rest =>
    if a = v then
      match rest with
      | [] => []
      | b :: rest2 => b :: _remove v rest2
    else a :: _remove v rest

/-- `_inanytail` from clss.c: is `v` in the tail of any of the lists? -/
def _inanytail (ls : List (List Nat)) (v : Nat) : Bool :=
  ls.any (fun l => _intail l v)

/-- `_done` from clss.c.  The C source reads

    for (int i=0; i<n; i++) if (in->count>0) return false;

the loop body tests `in->count` — the count of the *first* list — on
every iteration, so the function answers "is the first list empty"
(vacuously true when there are no lists), not "are all lists empty". -/
def _done (ls : List (List Nat)) : Bool :=
  match ls with
  | [] => true
  | l :: _ => l.isEmpty

/-- The head-selection scan of `_merge` from clss.c: walk the lists in
order, skip empty ones, and return the first head that is in no tail of
`all`. -/
def mergePick (all : List (List Nat)) : List (List Nat) → Option Nat
  | [] => none
  | l :: rest =>
    match l with
    | [] => mergePick all rest
    | h :: _ => if _inanytail all h then mergePick all rest else some h

/-- `_merge` from clss.c: pick a good head; on success remove it from
every list and report the head together with the updated lists. -/
def _merge (ls : List (List Nat)) : Option (Nat × List (List Nat)) :=
  match mergePick ls ls with
  | none => none
  | some h => some (h, ls.map (fun l => _remove h l))

/-- Total number of elements across the merge input lists; every
successful `_merge` step removes at least one (the chosen head from the
list it heads), so this bounds the number of loop iterations in
`_linearize`. -/
def totalLen (ls : List (List Nat)) : Nat :=
  (ls.map List.length).sum

/-- The merge loop of `_linearize` from clss.c:

    while (success && !_done(n, lin)) { success=_merge(n, lin, out); }

expressed with the iteration-count bound `fuel` (instantiated with
`totalLen`, which the loop can never exceed).  Returns the sequence of
heads appended to `out`, or `none` when a merge step stalls. -/
def mergeLoop : Nat → List (List Nat) → Option (List Nat)
  | fuel, ls =>
    if _done ls then some []
    else
      match fuel with
      | 0 => none
      | fuel' + 1 =>
        match _merge ls with
        | none => none
        | some (h, ls') => (mergeLoop fuel' ls').map (fun rest => h :: rest)

/-- `_linearize` from clss.c: the output starts with the class itself;
with no parents that is all, otherwise the merge loop runs on the copies
of the parents' stored linearizations (`_init` copies
`parent->linearization`). -/
def _linearize (self : Nat) (parentLins : List (List Nat)) : Option (List Nat) :=
  if parentLins.isEmpty then some [self]
  else (mergeLoop (totalLen parentLins) parentLins).map (fun rest => self :: rest)

/-- `class_linearize` from clss.c: reset the stored linearization and
recompute it.  `env` is the heap: it maps a parent uid to that parent
object, whose stored `linearization` the merge reads. -/
def class_linearize (env : Nat → ObjectClass) (klass : ObjectClass) : Option (List Nat) :=
  _linearize klass.uid (klass.parents.map (fun p => (env p).linearization))

/-! ### Concrete hierarchies used by the claims -/

/-- Diamond hierarchy (spec scenario 1): `A`; `B` inherits `A`; `C`
inherits `A`; `D` inherits `B, C`.  Uids: A = 0, B = 1, C = 2, D = 3.
Stored linearizations are the ones `class_linearize` itself computes
(each class is linearized after its parents); `D`'s is still empty when
`class_linearize(D)` runs. -/
def classA : ObjectClass := ⟨0, [], [0]⟩

/-- `B` of the diamond: single parent `A`. -/
def classB : ObjectClass := ⟨1, [0], [1, 0]⟩

/-- `C` of the diamond: single parent `A`. -/
def classC : ObjectClass := ⟨2, [0], [2, 0]⟩

/-- `D` of the diamond: parents `B, C` in that order. -/
def classD : ObjectClass := ⟨3, [1, 2], []⟩

/-- The heap for the diamond hierarchy. -/
def diamondEnv : Nat → ObjectClass
  | 0 => classA
  | 1 => classB
  | 2 => classC
  | _ => classD

/-- Hierarchy of spec scenario 2: `X`; `Y` inherits `X`; `Z` inherits
`X, Y` in that order.  Uids: X = 0, Y = 1, Z = 2. -/
def classX : ObjectClass := ⟨0, [], [0]⟩

/-- `Y`: single parent `X`. -/
def classY : ObjectClass := ⟨1, [0], [1, 0]⟩

/-- `Z`: parents `X, Y` in that order. -/
def classZ : ObjectClass := ⟨2, [0, 1], []⟩

/-- The heap for the scenario-2 hierarchy. -/
def zEnv : Nat → ObjectClass
  | 0 => classX
  | 1 => classY
  | _ => classZ

/-- Hierarchy exhibiting the `_done` slip: `D0`; `B1` inherits `D0`;
`A2`; `C3` inherits `A2, B1` in that order.  Uids as in the names. -/
def classD0 : ObjectClass := ⟨0, [], [0]⟩

/-- `B1`: single parent `D0`. -/
def classB1 : ObjectClass := ⟨1, [0], [1, 0]⟩

/-- `A2`: no parents. -/
def classA2 : ObjectClass := ⟨2, [], [2]⟩

/-- `C3`: parents `A2, B1` in that order. -/
def classC3 : ObjectClass := ⟨3, [2, 1], []⟩

/-- The heap for the `_done`-slip hierarchy. -/
def dropEnv : Nat → ObjectClass
  | 0 => classD0
  | 1 => classB1
  | 2 => classA2
  | _ => classC3

/-! ## Random engine (`src/src/support/random.c`) -/

/-- `2 ^ 64`, the modulus of `uint64_t` arithmetic. -/
def W64 : Nat := 2 ^ 64

/-- 64-bit left-rotation, `(x << k) | (x >> (64 - k))` on `uint64_t`
(`xoshiro256pp_rotl` and `xoshiro256p_rotl`, which are identical). -/
def rotl64 (x k : Nat) : Nat :=
  ((x <<< k) % W64) ||| (x >>> (64 - k))

/-- A 256-bit generator state: the four `uint64_t` state words. -/
structure X4 where
  s0 : Nat
  s1 : Nat
  s2 : Nat
  s3 : Nat
deriving Repr, DecidableEq

/-- `next` from random.c — one step of the xoshiro256++ generator,
returning the 64-bit result and the updated state. -/
def next (s : X4) : Nat × X4 :=
  let result := (rotl64 ((s.s0 + s.s3) % W64) 23 + s.s0) % W64
  let t := (s.s1 <<< 17) % W64
  let s2a := s.s2 ^^^ s.s0
  let s3a := s.s3 ^^^ s.s1
  let s1a := s.s1 ^^^ s2a
  let s0a := s.s0 ^^^ s3a
  let s2b := s2a ^^^ t
  let s3b := rotl64 s3a 45
  (result, ⟨s0a, s1a, s2b, s3b⟩)

/-- `xoshiro256p_next` from random.c — one step of the xoshiro256+
generator. -/
def xoshiro256p_next (s : X4) : Nat × X4 :=
  let result := (s.s0 + s.s3) % W64
  let t := (s.s1 <<< 17) % W64
  let s2a := s.s2 ^^^ s.s0
  let s3a := s.s3 ^^^ s.s1
  let s1a := s.s1 ^^^ s2a
  let s0a := s.s0 ^^^ s3a
  let s2b := s2a ^^^ t
  let s3b := rotl64 s3a 45
  (result, ⟨s0a, s1a, s2b, s3b⟩)

/-- The module state of random.c: the xoshiro256++ state
(`xoshiro256pp_state`) and the xoshiro256+ state (`xoshiro256p_state`). -/
structure RandomState where
  pp : X4
  p : X4
deriving Repr, DecidableEq

/-- The `JUMP` polynomial constants shared by the jump functions. -/
def JUMP : List Nat :=
  [0x180ec6d33cfd0aba, 0xd5a61266f0c9392c, 0xa9582618e03fc9aa, 0x39abdc4529b1661c]

/-- The `LONG_JUMP` polynomial constants shared by the long-jump
functions. -/
def LONG_JUMP : List Nat :=
  [0x76e15d3efefdcbbf, 0xc5004e441c522fb3, 0x77710069854ee241, 0x39109bb02acbe635]

/-- Componentwise XOR of two states (the `s0 ^= state[0]; …`
accumulation). -/
def xor4 (a b : X4) : X4 :=
  ⟨a.s0 ^^^ b.s0, a.s1 ^^^ b.s1, a.s2 ^^^ b.s2, a.s3 ^^^ b.s3⟩

/-- The body of `xoshiro256p_jump` / `xoshiro256p_longjump` from
random.c, for one polynomial word `w`: for each bit `b` of `w`,
accumulate the current `xoshiro256p_state` into the accumulator when the
bit is set, then call `next()` — which, in the C source, is the
xoshiro256++ stepper, so the inner call advances `xoshiro256pp_state`
and `xoshiro256p_state` never moves during the loop. -/
def pJumpWord (st : X4 × RandomState) (w : Nat) : X4 × RandomState :=
  (List.range 64).foldl
    (fun st b =>
      let acc := if w &&& (1 <<< b) ≠ 0 then xor4 st.1 st.2.p else st.1
      (acc, ⟨(next st.2.pp).2, st.2.p⟩))
    st

/-- `xoshiro256p_jump` from random.c, faithfully including the inner
`next()` call: after the loops the accumulator is written back into
`xoshiro256p_state`, while `xoshiro256pp_state` has been advanced 256
times. -/
def xoshiro256p_jump (rs : RandomState) : RandomState :=
  let fin := JUMP.foldl pJumpWord (⟨0, 0, 0, 0⟩, rs)
  ⟨fin.2.pp, fin.1⟩

/-- `xoshiro256p_longjump` from random.c; identical to
`xoshiro256p_jump` except for the polynomial constants. -/
def xoshiro256p_longjump (rs : RandomState) : RandomState :=
  let fin := LONG_JUMP.foldl pJumpWord (⟨0, 0, 0, 0⟩, rs)
  ⟨fin.2.pp, fin.1⟩

/-- `k` iterations of the xoshiro256++ stepper (state part only), used
to describe what the buggy jump functions actually do to
`xoshiro256pp_state`. -/
def nextIter : Nat → X4 → X4
  | 0, s => s
  | k + 1, s => nextIter k (next s).2

/-- `splitmix64_next` from random.c: the state is incremented by the
fixed constant, then scrambled into the output.  Takes and returns the
`splitmix64_state`. -/
def splitmix64_next (state : Nat) : Nat × Nat :=
  let st := (state + 0x9E3779B97F4A7C15) % W64
  let z1 := ((st ^^^ (st >>> 30)) * 0xBF58476D1CE4E5B9) % W64
  let z2 := ((z1 ^^^ (z1 >>> 27)) * 0x94D049BB133111EB) % W64
  (z2 ^^^ (z2 >>> 31), st)

/-- The `n`-th consecutive splitmix64 output after seeding with `seed`
(`splitmix64_seed` followed by `n + 1` calls of `splitmix64_next`). -/
def splitmix64_out (seed : Nat) : Nat → Nat
  | 0 => (splitmix64_next seed).1
  | n + 1 => splitmix64_out (splitmix64_next seed).2 n

/-- `random_double` from random.c: draw `x` from xoshiro256+ and return
`(double)(x >> 11) * 0x1.0p-53`.  Since `x >> 11 < 2 ^ 53`, the
conversion to `double` and the scaling by the power of two are exact, so
the IEEE result equals the rational `(x >>> 11) * 2⁻⁵³` modelled here. -/
def random_double (s : X4) : ℚ × X4 :=
  let d := xoshiro256p_next s
  ((d.1 >>> 11 : Nat) * (1 / 2 ^ 53 : ℚ), d.2)

/-- `random_int` from random.c: draw `x` from xoshiro256+ and return
`(unsigned int)(x >> 32)` (the cast is lossless since
`x >> 32 < 2 ^ 32`). -/
def random_int (s : X4) : Nat × X4 :=
  let d := xoshiro256p_next s
  (d.1 >>> 32, d.2)

/-- The 64-bit seed `random_initialize` assembles when `/dev/urandom`
opens: the loop reads `sizeof(unsigned long)` = 8 bytes with `fgetc`
into `char bytes[sizeof(uint64_t)]`, and `*((uint64_t *) bytes)`
reinterprets them, little-endian on the target platforms. -/
def seedFromBytes (f : Nat → Nat) : Nat :=
  (List.range 8).foldl (fun acc i => acc + (f i % 256) * 256 ^ i) 0

/-- Result of `random_initialize`: whether the time-fallback warning was
printed, how many bytes were read from `/dev/urandom`, and the two
generator states. -/
structure InitResult where
  warned : Bool
  bytesRead : Nat
  pp : X4
  p : X4
deriving Repr, DecidableEq

/-- `random_initialize` from random.c (named `random_init` here).
`urandom` is `some f` when
`fopen("/dev/urandom", "r")` succeeds, with `f` the byte stream;
`timeSeed` is `(uint64_t) time(NULL)`.  The seed is the 8 stream bytes
when the stream is available, otherwise the time (with a warning); it is
then expanded through splitmix64, the four xoshiro256++ words first,
then the four xoshiro256+ words. -/
def random_init (urandom : Option (Nat → Nat)) (timeSeed : Nat) : InitResult :=
  let seed : Nat :=
    match urandom with
    | some f => seedFromBytes f
    | none => timeSeed % W64
  let a0 := splitmix64_next seed
  let a1 := splitmix64_next a0.2
  let a2 := splitmix64_next a1.2
  let a3 := splitmix64_next a2.2
  let b0 := splitmix64_next a3.2
  let b1 := splitmix64_next b0.2
  let b2 := splitmix64_next b1.2
  let b3 := splitmix64_next b2.2
  { warned := urandom.isNone
    bytesRead := match urandom with | some _ => 8 | none => 0
    pp := ⟨a0.1, a1.1, a2.1, a3.1⟩
    p := ⟨b0.1, b1.1, b2.1, b3.1⟩ }

/-! ## Parser precedence ladder (`src/src/support/parse.h`) -/

/-- `PREC_NONE`, first member of the anonymous precedence `enum`
(C assigns consecutive values from 0). -/
def PREC_NONE : Nat := 0

/-- `PREC_LOWEST`. -/
def PREC_LOWEST : Nat := 1

/-- `PREC_ASSIGN`. -/
def PREC_ASSIGN : Nat := 2

/-- `PREC_OR`. -/
def PREC_OR : Nat := 3

/-- `PREC_AND`. -/
def PREC_AND : Nat := 4

/-- `PREC_EQUALITY`. -/
def PREC_EQUALITY : Nat := 5

/-- `PREC_COMPARISON`. -/
def PREC_COMPARISON : Nat := 6

/-- `PREC_RANGE`. -/
def PREC_RANGE : Nat := 7

/-- `PREC_TERM`. -/
def PREC_TERM : Nat := 8

/-- `PREC_FACTOR`. -/
def PREC_FACTOR : Nat := 9

/-- `PREC_UNARY`. -/
def PREC_UNARY : Nat := 10

/-- `PREC_POW`. -/
def PREC_POW : Nat := 11

/-- `PREC_CALL`. -/
def PREC_CALL : Nat := 12

/-- `PREC_HIGHEST`, last member of the precedence `enum`. -/
def PREC_HIGHEST : Nat := 13

/-! ## Discretizations (`src/morpho5/geometry/discretization.c`) -/

/-- Modelled from the spec: `MESH_GRADE_LINE` is defined in mesh.h,
which is not among the provided sources; per the glossary ("Grade.
Topological dimension of a mesh entity: 0 = vertex, 1 = line, …") the
line grade is 1. -/
def MESH_GRADE_LINE : Nat := 1

/-- Modelled from the spec: `LAGRANGE_CONSTRUCTORNAME` is defined in
discretization.h, which is not among the provided sources; scenario 7
("printing yields `<lagrange 3>`") fixes it to `"lagrange"`. -/
def LAGRANGE_CONSTRUCTORNAME : String := "lagrange"

/-- The `discretization` struct: label, polynomial order, grade, and
the shape vector (`g + 1` entries, degrees of freedom per grade). -/
structure Discretization where
  label : String
  order : Int
  g : Nat
  shape : List Int
deriving Repr, DecidableEq

/-- `objectdiscretization` wraps a `discretization` behind an object
header. -/
structure ObjectDiscretization where
  d : Discretization
deriving Repr, DecidableEq

/-- A morpho runtime value, as far as the Lagrange constructor needs
one: an integer, or some value of another kind. -/
inductive MorphoValue where
  | nil
  | intv (n : Int)
  | other
deriving Repr, DecidableEq

/-- Modelled from the spec: `morpho_valuetoint` lives in the value core,
which is not among the provided sources.  It converts a value to an
`int`, reporting success; on failure the output parameter is left
untouched, which the `Option` models. -/
def morpho_valuetoint : MorphoValue → Option Int
  | .intv n => some n
  | _ => none

/-- `object_newdiscretization` from discretization.c:
`discretization_init` stores label, order and grade and allocates
`shape`, then the constructor copies `shape[0] … shape[grade]` from the
caller's array.  (Allocation is modelled as succeeding.) -/
def object_newdiscretization (label : String) (order : Int) (grade : Nat)
    (shape : List Int) : ObjectDiscretization :=
  ⟨⟨label, order, grade, shape.take (grade + 1)⟩⟩

/-- `objectdiscretization_printfn` from discretization.c:
`printf("<%s %i>", label, order)`. -/
def objectdiscretization_printfn (o : ObjectDiscretization) : String :=
  "<" ++ o.d.label ++ " " ++ toString o.d.order ++ ">"

/-- `lagrange_constructor` from discretization.c: `order` starts at 1;
with exactly one argument `morpho_valuetoint` may overwrite it (its
return value is discarded, so a failed conversion leaves the default);
the discretization is built with the Lagrange label, the line grade and
shape `{1, order - 1}`. -/
def lagrange_constructor (args : List MorphoValue) : ObjectDiscretization :=
  let order : Int :=
    if args.length = 1 then
      match morpho_valuetoint (args.headD .nil) with
      | some n => n
      | none => 1
    else 1
  object_newdiscretization LAGRANGE_CONSTRUCTORNAME order MESH_GRADE_LINE
    [1, order - 1]

/-- `cgn_nodecount` from discretization.c: `d->order + 1` nodes. -/
def cgn_nodecount (d : Discretization) : Int :=
  d.order + 1

/-- The divisor of each division `((double) i)/(n-1)` actually executed
by the loop in `cgn_nodepositions`: the `int` loop `for (i=0; i<n; i++)`
runs `max n 0` times, and every iteration divides by `n - 1`. -/
def cgn_nodedivisors (d : Discretization) : List Int :=
  (List.range (cgn_nodecount d).toNat).map (fun _ => cgn_nodecount d - 1)

/-- `cgn_nodepositions` from discretization.c: the coordinates
`((double) i)/(n-1)` written into row 0 of the output matrix, as exact
rationals (the claims concern which divisions execute and their
divisors, not IEEE rounding; `ℚ` division by zero denotes the junk value
0 where the C computes `0.0/0.0`). -/
def cgn_nodepositions (d : Discretization) : List ℚ :=
  (List.range (cgn_nodecount d).toNat).map
    (fun (i : Nat) => (i : ℚ) / ((cgn_nodecount d : ℚ) - 1))

/-- Is the `cgn_nodepositions` loop free of division by zero: does every
executed division have a non-zero divisor? -/
def cgn_divzero_free (d : Discretization) : Bool :=
  (cgn_nodedivisors d).all (fun q => q ≠ 0)

/-- Concrete module state used to exercise the jump functions:
xoshiro256++ at `(1, 2, 3, 4)`, xoshiro256+ at `(5, 6, 7, 8)`. -/
def jumpTestState : RandomState := ⟨⟨1, 2, 3, 4⟩, ⟨5, 6, 7, 8⟩⟩

/-- A discretization with negative order, as `lagrange_constructor`
builds for the argument `-1`: order `-1`, line grade, shape `{1, -2}`. -/
def negOrderDisc : Discretization := ⟨LAGRANGE_CONSTRUCTORNAME, -1, MESH_GRADE_LINE, [1, -2]⟩

/-! ## Theorems -/

/-- Upper bound on a xoshiro256+ draw: the result of
`xoshiro256p_next` is a `uint64_t`. -/
theorem xoshiro256p_next_fst_lt (s : X4) : (xoshiro256p_next s).1 < W64 :=
  Nat.mod_lt _ (by decide)

/-- **C1.** In the hierarchy `D0`; `B1` inherits `D0`; `A2`; `C3`
inherits `A2, B1`, with `D0`, `B1`, `A2` already linearized (their
stored linearizations are exactly what `class_linearize` computes),
`class_linearize(C3)` returns success with linearization `[C3, A2]` —
dropping the direct parent `B1` (uid 1) and its ancestor `D0`, which
occur in the merge input `[1, 0]`.  This refutes the claim that on
success every element of every merge input list appears in the output:
the `_done` loop tests `in->count` (the first list) instead of
`in[i].count`, so the merge stops as soon as the first input list
empties. -/
theorem C1_done_slip_drops_parent :
    class_linearize dropEnv classD0 = some classD0.linearization ∧
    class_linearize dropEnv classB1 = some classB1.linearization ∧
    class_linearize dropEnv classA2 = some classA2.linearization ∧
    class_linearize dropEnv classC3 = some [3, 2] ∧
    1 ∈ classC3.parents ∧ 1 ∈ (classB1.linearization) ∧
    ¬(1 ∈ ([3, 2] : List Nat)) := by
  decide

/-- **C2 counterexample.** For `X`; `Y` inherits `X`; `Z` inherits
`X, Y`, with `X` and `Y` linearized first, `class_linearize(Z)` does
*not* return failure: the merge omits the parent-order list `[X, Y]`, so
no step stalls. -/
theorem C2_counterexample :
    class_linearize zEnv classZ ≠ none := by
  decide

/-- **C2 amended.** For the hierarchy `X`; `Y` inherits `X`; `Z`
inherits `X, Y` in that order, where `X` and `Y` are linearized before
`Z` (their stored linearizations are what `class_linearize` computes),
`class_linearize(Z)` returns success with `Z.linearization =
[Z, Y, X]`: the merge inputs are only `L(X) = [X]` and `L(Y) = [Y, X]`
— the parent-order list `[X, Y]` is not among them — so `Y` and then
`X` are good heads and no merge step stalls. -/
theorem C2_amended :
    class_linearize zEnv classX = some classX.linearization ∧
    class_linearize zEnv classY = some classY.linearization ∧
    class_linearize zEnv classZ = some [2, 1, 0] := by
  decide

set_option maxRecDepth 10000 in
/-- **C3.** Calling `xoshiro256p_jump` (or `xoshiro256p_longjump`) does
*not* leave the other generator alone: from the concrete module state
`jumpTestState` it advances the xoshiro256++ state by the 256 `next()`
calls of its loop (changing it), and it sets the xoshiro256+ state to
`(0, 0, 0, 0)` — the XOR-accumulation reads a state that never moves
during the loop, and the jump polynomials have an even number of set
bits, so the accumulator cancels to zero instead of holding the state
2¹²⁸ (2¹⁹²) draws ahead. -/
theorem C3_jump_steps_wrong_generator :
    (xoshiro256p_jump jumpTestState).pp = nextIter 256 jumpTestState.pp ∧
    (xoshiro256p_jump jumpTestState).pp ≠ jumpTestState.pp ∧
    (xoshiro256p_jump jumpTestState).p = ⟨0, 0, 0, 0⟩ ∧
    (xoshiro256p_longjump jumpTestState).pp = nextIter 256 jumpTestState.pp ∧
    (xoshiro256p_longjump jumpTestState).pp ≠ jumpTestState.pp ∧
    (xoshiro256p_longjump jumpTestState).p = ⟨0, 0, 0, 0⟩ ∧
    jumpTestState.p ≠ ⟨0, 0, 0, 0⟩ := by
  decide

/-- **C4.** Diamond inheritance: `A`; `B` inherits `A`; `C` inherits
`A`; `D` inherits `B, C` in that order, every class linearized after its
parents (the stored linearizations of `A`, `B`, `C` are exactly what
`class_linearize` computes for them).  `class_linearize(D)` returns
success and the result is `[D, B, C, A]` (uids `[3, 1, 2, 0]`). -/
theorem C4_diamond_linearization :
    class_linearize diamondEnv classA = some classA.linearization ∧
    class_linearize diamondEnv classB = some classB.linearization ∧
    class_linearize diamondEnv classC = some classC.linearization ∧
    class_linearize diamondEnv classD = some [3, 1, 2, 0] := by
  decide

/-- **C5.** The Lagrange constructor applied to the single integer 3
yields a discretization of order 3, line grade and shape `[1, 2]`; with
no argument the order defaults to 1; and the type entry's print function
renders the order-3 object as `<lagrange 3>`. -/
theorem C5_lagrange_constructor :
    (lagrange_constructor [.intv 3]).d.order = 3 ∧
    (lagrange_constructor [.intv 3]).d.g = MESH_GRADE_LINE ∧
    (lagrange_constructor [.intv 3]).d.shape = [1, 2] ∧
    (lagrange_constructor []).d.order = 1 ∧
    objectdiscretization_printfn (lagrange_constructor [.intv 3]) = "<lagrange 3>" := by
  decide

/-- **C6 counterexample.** `random_initialize` does not consume 32 bytes
from `/dev/urandom`: its read loop runs `sizeof(unsigned long)` = 8
times, and the resulting state is insensitive to bytes 8–31 of the
stream (two streams agreeing only on their first 8 bytes initialize
identically). -/
theorem C6_counterexample :
    (random_init (some (fun i => i % 256)) 0).bytesRead ≠ 32 ∧
    random_init (some (fun i => i % 256)) 0 =
      random_init (some (fun i => if i < 8 then i % 256 else 97)) 0 := by
  constructor
  · decide
  · rfl

/-- **C6 amended.** `random_initialize` seeds the generators from 8
OS-random bytes (one 64-bit seed) when `/dev/urandom` can be opened;
otherwise it falls back to wall-clock seconds and emits a warning; in
either case the seed is expanded through splitmix64, filling first the
four xoshiro256++ state words and then the four xoshiro256+ state words
with the eight consecutive splitmix64 outputs. -/
theorem C6_seeding (f : Nat → Nat) (t : Nat) :
    random_init (some f) t =
      ⟨false, 8,
        ⟨splitmix64_out (seedFromBytes f) 0, splitmix64_out (seedFromBytes f) 1,
         splitmix64_out (seedFromBytes f) 2, splitmix64_out (seedFromBytes f) 3⟩,
        ⟨splitmix64_out (seedFromBytes f) 4, splitmix64_out (seedFromBytes f) 5,
         splitmix64_out (seedFromBytes f) 6, splitmix64_out (seedFromBytes f) 7⟩⟩ ∧
    random_init none t =
      ⟨true, 0,
        ⟨splitmix64_out (t % W64) 0, splitmix64_out (t % W64) 1,
         splitmix64_out (t % W64) 2, splitmix64_out (t % W64) 3⟩,
        ⟨splitmix64_out (t % W64) 4, splitmix64_out (t % W64) 5,
         splitmix64_out (t % W64) 6, splitmix64_out (t % W64) 7⟩⟩ := by
  constructor <;> rfl

/-- **C7.** A `random_double` call draws `x` from xoshiro256+ and
returns exactly `(x >> 11) · 2⁻⁵³` — the top 53 bits of the draw scaled
into `[0, 1]` — leaving the state one draw ahead; a `random_int` call
draws `x` from xoshiro256+ and returns its upper 32 bits `x >> 32`,
which fit an unsigned 32-bit integer. -/
theorem C7_double_and_int_draws (s : X4) :
    (random_double s).1 = ((xoshiro256p_next s).1 / 2 ^ 11 : Nat) / (2 ^ 53 : ℚ) ∧
    0 ≤ (random_double s).1 ∧ (random_double s).1 ≤ 1 ∧
    (random_double s).2 = (xoshiro256p_next s).2 ∧
    (random_int s).1 = (xoshiro256p_next s).1 / 2 ^ 32 ∧
    (random_int s).1 < 2 ^ 32 ∧
    (random_int s).2 = (xoshiro256p_next s).2 := by
  have hx : (xoshiro256p_next s).1 < W64 := xoshiro256p_next_fst_lt s
  have h11 : (xoshiro256p_next s).1 >>> 11 = (xoshiro256p_next s).1 / 2 ^ 11 :=
    Nat.shiftRight_eq_div_pow _ _
  have h32 : (xoshiro256p_next s).1 >>> 32 = (xoshiro256p_next s).1 / 2 ^ 32 :=
    Nat.shiftRight_eq_div_pow _ _
  have hlt53 : (xoshiro256p_next s).1 / 2 ^ 11 < 2 ^ 53 := by
    apply Nat.div_lt_of_lt_mul
    calc (xoshiro256p_next s).1 < W64 := hx
    _ = 2 ^ 11 * 2 ^ 53 := by norm_num [W64]
  refine ⟨?_, ?_, ?_, rfl, ?_, ?_, rfl⟩
  · show ((xoshiro256p_next s).1 >>> 11 : Nat) * ((1 : ℚ) / 2 ^ 53) = _
    rw [h11]; ring
  · show 0 ≤ ((xoshiro256p_next s).1 >>> 11 : Nat) * ((1 : ℚ) / 2 ^ 53)
    positivity
  · show ((xoshiro256p_next s).1 >>> 11 : Nat) * ((1 : ℚ) / 2 ^ 53) ≤ 1
    rw [h11, mul_one_div, div_le_one (by positivity)]
    exact_mod_cast hlt53.le
  · exact h32
  · show (xoshiro256p_next s).1 >>> 32 < 2 ^ 32
    rw [h32]
    apply Nat.div_lt_of_lt_mul
    calc (xoshiro256p_next s).1 < W64 := hx
    _ = 2 ^ 32 * 2 ^ 32 := by norm_num [W64]

/-- **C8.** The parser precedence constants form a strictly increasing
ladder in exactly the order NONE < LOWEST < ASSIGN < OR < AND <
EQUALITY < COMPARISON < RANGE < TERM < FACTOR < UNARY < POW < CALL <
HIGHEST. -/
theorem C8_precedence_ladder :
    PREC_NONE < PREC_LOWEST ∧ PREC_LOWEST < PREC_ASSIGN ∧
    PREC_ASSIGN < PREC_OR ∧ PREC_OR < PREC_AND ∧
    PREC_AND < PREC_EQUALITY ∧ PREC_EQUALITY < PREC_COMPARISON ∧
    PREC_COMPARISON < PREC_RANGE ∧ PREC_RANGE < PREC_TERM ∧
    PREC_TERM < PREC_FACTOR ∧ PREC_FACTOR < PREC_UNARY ∧
    PREC_UNARY < PREC_POW ∧ PREC_POW < PREC_CALL ∧
    PREC_CALL < PREC_HIGHEST := by
  decide

/-- **C9 counterexample.** A discretization of order `-1` (as the
Lagrange constructor builds for argument `-1`) executes no division at
all — the node loop runs zero times — so its computation is free of
division by zero although its order is not `≥ 1`: "free of division by
zero exactly when order ≥ 1" fails. -/
theorem C9_counterexample :
    ¬(cgn_divzero_free negOrderDisc = true ↔ 1 ≤ negOrderDisc.order) := by
  decide

/-- **C9 amended.** `cgn_nodepositions` writes
`cgn_nodecount(d) = d.order + 1` node coordinates (clamped at zero
iterations for negative counts); every executed division divides by
`n − 1 = d.order`; and the computation is free of division by zero
exactly when `d.order ≠ 0` — at order 0 the single node's position is
computed by dividing by zero, while at negative orders no division
executes. -/
theorem C9_division_by_zero_characterization (d : Discretization) :
    (cgn_nodepositions d).length = (cgn_nodecount d).toNat ∧
    cgn_nodedivisors d = List.replicate (cgn_nodecount d).toNat d.order ∧
    (cgn_divzero_free d = true ↔ d.order ≠ 0) := by
  have hdiv : cgn_nodecount d - 1 = d.order := by
    simp [cgn_nodecount]
  have hrep : cgn_nodedivisors d = List.replicate (cgn_nodecount d).toNat d.order := by
    simp [cgn_nodedivisors, hdiv, List.map_const']
  refine ⟨by rw [cgn_nodepositions, List.length_map, List.length_range], hrep, ?_⟩
  rw [cgn_divzero_free, hrep]
  simp only [List.all_eq_true, List.mem_replicate, decide_eq_true_eq, and_imp]
  constructor
  · intro h
    by_contra h0
    have hcount : (cgn_nodecount d).toNat = 1 := by
      simp [cgn_nodecount, h0]
    exact h d.order (by omega) rfl h0
  · intro h x _ hx
    exact hx ▸ h

/-- **C10.** If `lagrange_constructor` receives exactly one argument
that cannot be converted to an integer, `morpho_valuetoint`'s failure is
ignored (its return value is discarded and the output parameter is left
untouched), and the constructor still returns a discretization with the
default order 1 — identical to the no-argument result: order 1, line
grade, shape `[1, 0]`.  The embedding returns an object unconditionally,
mirroring the C function, which contains no error-raising path. -/
theorem C10_bad_argument_ignored (v : MorphoValue)
    (h : morpho_valuetoint v = none) :
    lagrange_constructor [v] =
      ⟨⟨LAGRANGE_CONSTRUCTORNAME, 1, MESH_GRADE_LINE, [1, 0]⟩⟩ ∧
    lagrange_constructor [v] = lagrange_constructor [] := by
  constructor <;>
    simp [lagrange_constructor, h, object_newdiscretization, MESH_GRADE_LINE]

/-- Witness for C10: the `nil` value is not convertible to an integer,
and the constructor applied to it yields the default order-1
discretization. -/
theorem C10_witness :
    lagrange_constructor [.nil] =
      ⟨⟨LAGRANGE_CONSTRUCTORNAME, 1, MESH_GRADE_LINE, [1, 0]⟩⟩ ∧
    lagrange_constructor [.nil] = lagrange_constructor [] :=
  C10_bad_argument_ignored .nil (by decide)
